import Mathlib

/-!
Verification development for the function-instrumentation layer of
`favie_common` (`src/favie_common/trace/context_trace_func.py`).

The Python module is embedded shallowly:

* Python runtime values that can flow through the instrumentation layer are
  modelled by the mutual inductive family `PyVal` / `PyList` / `PyDict`
  (dictionaries are insertion-ordered association lists, as in CPython).
* Pure Python functions become Lean functions; functions that can raise
  become functions into `Except PyExc _` or carry an `Option PyExc` field;
  attribute/log side effects become explicit state threading
  (`SpanRec`, stack-trace records, emitted-log lists).
* Machine integers do not occur in the modelled code paths; Python `int`
  is unbounded and is modelled by `Int`.
* `await` points disappear in the pure embedding: an awaited coroutine body
  is the same state transformer as the synchronous one, and a (finite
  prefix of a) lazy or async-lazy sequence is modelled by the list of
  elements it emits.
-/

namespace ContextTrace

/-! ## Python values

`PyVal.baseModel dump` models a pydantic `BaseModel` instance through the
outcome of `json.loads(arg.model_dump_json())`: `some d` when conversion
succeeds with parsed value `d`, `none` when it raises (the source catches the
exception).  `PyVal.obj attrs objRepr` models an arbitrary object: `attrs` is
`some` its `__dict__` when the object has one, and `objRepr` models `str(obj)`.
`PyVal.asyncIter elems` models an async-iterable argument by the sequence of
elements it emits.  `PyVal.request headers` models a `fastapi.Request` carrier.
Python `float` does not occur in any modelled claim and is omitted from the
value universe. -/

mutual
inductive PyVal where
  | none
  | bool (b : Bool)
  | int (n : Int)
  | str (s : String)
  | list (xs : PyList)
  | tuple (xs : PyList)
  | set (xs : PyList)
  | dict (kvs : PyDict)
  | baseModel (dump : Option PyVal)
  | asyncIter (elems : PyList)
  | obj (attrs : Option PyDict) (objRepr : String)
  | request (headers : List (String × String))

inductive PyList where
  | nil
  | cons (v : PyVal) (rest : PyList)

inductive PyDict where
  | nil
  | cons (k : String) (v : PyVal) (rest : PyDict)
end

/-- Conversion from a Lean list literal to a `PyList`. -/
def pl : List PyVal → PyList
  | [] => .nil
  | v :: rest => .cons v (pl rest)

/-- Conversion from a Lean association-list literal to a `PyDict`. -/
def pd : List (String × PyVal) → PyDict
  | [] => .nil
  | (k, v) :: rest => .cons k v (pd rest)

/-- Membership test for a key, as Python `k in d`. -/
def PyDict.hasKey : PyDict → String → Bool
  | .nil, _ => false
  | .cons k' _ rest, k => k' == k || rest.hasKey k

/-- Lookup, as Python `d.get(k)` (`none` models Python `None` for a missing key). -/
def PyDict.lookup : PyDict → String → Option PyVal
  | .nil, _ => Option.none
  | .cons k' v rest, k => if k' == k then some v else rest.lookup k

/-- Python `d[k] = v`: replace in place when the key exists, append otherwise. -/
def PyDict.setKey : PyDict → String → PyVal → PyDict
  | .nil, k, v => .cons k v .nil
  | .cons k' v' rest, k, v =>
    if k' == k then .cons k' v rest else .cons k' v' (rest.setKey k v)

/-- Python `del d[k]` for a present key (keys are unique in a Python dict). -/
def PyDict.delKey : PyDict → String → PyDict
  | .nil, _ => .nil
  | .cons k' v rest, k => if k' == k then rest else .cons k' v (rest.delKey k)

/-- Last element of a `PyList`, as Python `values[-1]` guarded by `if values:`. -/
def PyList.getLast? : PyList → Option PyVal
  | .nil => Option.none
  | .cons v .nil => some v
  | .cons _ (.cons v rest) => PyList.getLast? (.cons v rest)

/-! ## `clean_empty` (source lines 372-378)

The source filters a cleaned list element with `v != [] and v is not None`
and a cleaned dict entry with `v is not None and v != {}`.  Python equality
with the literal `[]` holds exactly for an empty list, and with `{}` exactly
for an empty dict, so the two keep-conditions are embedded as the decidable
predicates below. -/

/-- Keep-condition of the list branch of `clean_empty`: `v != [] and v is not None`. -/
def keepInList : PyVal → Bool
  | .list .nil => false
  | .none => false
  | _ => true

/-- Keep-condition of the dict branch of `clean_empty`: `v is not None and v != {}`. -/
def keepInDict : PyVal → Bool
  | .none => false
  | .dict .nil => false
  | _ => true

mutual
/-- `clean_empty(d)` from the source: recurse into lists and dicts, return
every other value unchanged. -/
def clean_empty : PyVal → PyVal
  | .list xs => .list (cleanList xs)
  | .dict kvs => .dict (cleanDict kvs)
  | v => v

/-- The list comprehension of `clean_empty`:
`[v for v in (clean_empty(v) for v in d) if v != [] and v is not None]`. -/
def cleanList : PyList → PyList
  | .nil => .nil
  | .cons v rest =>
    let c := clean_empty v
    let r := cleanList rest
    if keepInList c then .cons c r else r

/-- The dict comprehension of `clean_empty`:
`{k: v for k, v in ((k, clean_empty(v)) for k, v in d.items()) if v is not None and v != {}}`. -/
def cleanDict : PyDict → PyDict
  | .nil => .nil
  | .cons k v rest =>
    let c := clean_empty v
    let r := cleanDict rest
    if keepInDict c then .cons k c r else r
end

/-! ## Structured serializer (source lines 85-107, 381-408) -/

/-- `to_json_obj(arg)` from the source: a pydantic model is converted through
`json.loads(arg.model_dump_json())` with an empty-string fallback when that
raises; `bool/int/float/str/list/tuple/set/dict` pass through unchanged; every
other value falls off the end of the function, so Python returns `None`. -/
def to_json_obj : PyVal → PyVal
  | .baseModel (some d) => d
  | .baseModel Option.none => .str ""
  | .bool b => .bool b
  | .int n => .int n
  | .str s => .str s
  | .list xs => .list xs
  | .tuple xs => .tuple xs
  | .set xs => .set xs
  | .dict kvs => .dict kvs
  | _ => .none

/-- Models Python `str(...)` on the embedded values.  Only the scalar cases and
the `objRepr` field of an arbitrary object are ever inspected by a claim; the
rendering of containers is irrelevant to every claim and is left abstract. -/
def pyStr : PyVal → String
  | PyVal.none => "None"
  | .bool b => if b then "True" else "False"
  | .int n => toString n
  | .str s => s
  | .obj _ r => r
  | _ => "<value>"

/-- `custom_serializer(obj)` from the source: objects with a `__dict__` are
serialized as `clean_empty(obj.__dict__)`, everything else as `str(obj)`.
Having a `__dict__` is modelled by the `attrs` field of `PyVal.obj`; the other
embedded value kinds are primitives and containers, which have no `__dict__`
(the raw field mapping of a modelled `baseModel`/`request` is not embedded
because no claim depends on it). -/
def custom_serializer : PyVal → PyVal
  | .obj (some attrs) _ => clean_empty (.dict attrs)
  | v => .str (pyStr v)

/-- `to_json_string(any_object)` from the source: a string passes through,
any other value is `json.dumps(clean_empty(obj), default=custom_serializer)`.
The exact text the external `json.dumps` produces is irrelevant to every claim
(the result is only stored as an opaque span-attribute string), so the dump is
modelled by the abstract renderer `pyStr` applied after `clean_empty`. -/
def to_json_string : PyVal → String
  | .str s => s
  | v => pyStr (clean_empty v)

/-- `async_to_json_obj(arg, k=None, args=None)` from the source.  When `arg`
is an async iterator and both `k` and `args` were supplied, the sequence is
teed (`asyncstdlib.tee`) into two independent copies of the same element
sequence; one copy is substituted back at `args[k]`, the other is drained and
its last element (or `""` when it emitted nothing) becomes the snapshot.
Otherwise the call falls through to `to_json_obj`.  The result pairs the
snapshot with the (possibly substituted) argument list. -/
def async_to_json_obj (arg : PyVal) (k : Option Nat) (args : Option (List PyVal)) :
    PyVal × Option (List PyVal) :=
  match arg, k, args with
  | .asyncIter elems, some ki, some argList =>
    let snapshot :=
      match elems.getLast? with
      | some v => to_json_obj v
      | Option.none => .str ""
    (snapshot, some (argList.set ki (.asyncIter elems)))
  | a, _, as_ => (to_json_obj a, as_)

/-! ## Exceptions, spans, callables -/

/-- The exception kinds the embedded code paths can produce or propagate. -/
inductive PyExc where
  | typeError
  | attributeError
  | valueError (msg : String)
deriving DecidableEq

/-- Generic ordered association-list update with Python dict semantics,
used for span attributes. -/
def setKeyL {α : Type} : List (String × α) → String → α → List (String × α)
  | [], k, v => [(k, v)]
  | (k', v') :: rest, k, v =>
    if k' == k then (k', v) :: rest else (k', v') :: setKeyL rest k v

/-- Generic association-list lookup. -/
def lookupL {α : Type} : List (String × α) → String → Option α
  | [], _ => Option.none
  | (k', v) :: rest, k => if k' == k then some v else lookupL rest k

/-- An OpenTelemetry span as the embedded code observes it: name, attribute
table, whether `end()` has run, and whether the status was set to error. -/
structure SpanRec where
  name : String
  attrs : List (String × PyVal)
  ended : Bool
  statusError : Bool

/-- `span.set_attribute(k, v)`. -/
def SpanRec.setAttr (s : SpanRec) (k : String) (v : PyVal) : SpanRec :=
  { s with attrs := setKeyL s.attrs k v }

/-- Declared parameter list of a Python callable: name and optional default. -/
abbrev Params := List (String × Option PyVal)

/-- A blocking (or awaited) Python callable: a name, a declared signature and
a body from bound arguments to a result or a raised exception. -/
structure PyFunc where
  fname : String
  params : Params
  body : List (String × PyVal) → Except PyExc PyVal

/-- A (sync or async) generator function: the body yields a sequence of
elements and then either finishes or raises. -/
structure GenFunc where
  fname : String
  params : Params
  gen : List (String × PyVal) → List PyVal × Option PyExc

/-- Binds the non-positional parameters from keyword arguments or defaults,
failing (`TypeError`) on a missing required parameter. -/
def bindRest : Params → List (String × PyVal) → Option (List (String × PyVal))
  | [], _ => some []
  | (n, d) :: ps, kwargs =>
    let v? : Option PyVal :=
      match kwargs.find? (fun kv => kv.1 == n) with
      | some kv => some kv.2
      | Option.none => d
    match v?, bindRest ps kwargs with
    | some v, some rest => some ((n, v) :: rest)
    | _, _ => Option.none

/-- `inspect.signature(func).bind(*args, **kwargs)` followed by
`apply_defaults()`: positional arguments fill the leading parameters, keyword
arguments the rest; too many positionals, an unknown or duplicated keyword, or
a missing required parameter raise `TypeError`.  The result lists the bound
arguments in signature order, exactly like `bound_arguments.arguments`.
Calling the function itself performs the same binding, so `call_plain` and
`call_gen` below share this definition. -/
def bindArgs (params : Params) (args : List PyVal) (kwargs : List (String × PyVal)) :
    Except PyExc (List (String × PyVal)) :=
  if params.length < args.length then .error .typeError
  else
    let posParams := params.take args.length
    let posBound := List.zipWith (fun p v => (p.1, v)) posParams args
    if kwargs.any (fun kv => posParams.any (fun p => p.1 == kv.1)) then .error .typeError
    else if kwargs.any (fun kv => !(params.any (fun p => p.1 == kv.1))) then .error .typeError
    else
      match bindRest (params.drop args.length) kwargs with
      | some rest => .ok (posBound ++ rest)
      | Option.none => .error .typeError

/-- An uninstrumented call `func(*args, **kwargs)` of a blocking or awaited
callable: bind the arguments, then run the body. -/
def call_plain (f : PyFunc) (args : List PyVal) (kwargs : List (String × PyVal)) :
    Except PyExc PyVal :=
  match bindArgs f.params args kwargs with
  | .error e => .error e
  | .ok bound => f.body bound

/-- An uninstrumented generator call consumed to exhaustion: the elements it
yields and the exception, if any, that ends the iteration. -/
def call_gen (f : GenFunc) (args : List PyVal) (kwargs : List (String × PyVal)) :
    List PyVal × Option PyExc :=
  match bindArgs f.params args kwargs with
  | .error e => ([], some e)
  | .ok bound => f.gen bound

/-! ## Input/output snapshot steps (source lines 110-197) -/

/-- Python truthiness of the embedded values (`if arg.get("metadata"):`,
`if input_context`, ...). -/
def pyTruthy : PyVal → Bool
  | PyVal.none => false
  | .bool b => b
  | .int n => n != 0
  | .str s => s != ""
  | .list .nil => false
  | .list _ => true
  | .tuple .nil => false
  | .tuple _ => true
  | .set .nil => false
  | .set _ => true
  | .dict .nil => false
  | .dict _ => true
  | _ => true

/-- Promotes every `metadata` entry of a bound `config` argument to a span
attribute (string-encoded), as the `k == "config"` branch of the snapshot
loops does.  `arg.get("metadata")` requires `arg` to be a mapping
(`AttributeError` otherwise), and a truthy non-mapping `metadata` value makes
`.items()` raise `AttributeError`. -/
def configMeta (span : SpanRec) (arg : PyVal) : Except PyExc SpanRec :=
  match arg with
  | .dict kvs =>
    match kvs.lookup "metadata" with
    | Option.none => .ok span
    | some m =>
      if pyTruthy m then
        match m with
        | .dict mkvs => .ok (setMetaAttrs span mkvs)
        | _ => .error .attributeError
      else .ok span
  | _ => .error .attributeError
where
  /-- `for meta_k, meta_v in ...: span.set_attribute(meta_k, to_json_string(meta_v))`. -/
  setMetaAttrs : SpanRec → PyDict → SpanRec
  | sp, .nil => sp
  | sp, .cons k v rest => setMetaAttrs (sp.setAttr k (.str (to_json_string v))) rest

/-- The named-argument snapshot loop shared by the sync and async input-meta
steps: `config` promotes metadata to span attributes, `context` is skipped,
every other bound argument is serialized into `inputs`.  An exception raised
mid-loop aborts the loop (attributes already set are kept). -/
def snapshotArgs : SpanRec → PyDict → List (String × PyVal) →
    SpanRec × PyDict × Option PyExc
  | span, inputs, [] => (span, inputs, Option.none)
  | span, inputs, (k, arg) :: rest =>
    if k == "config" then
      match configMeta span arg with
      | .ok span2 => snapshotArgs span2 inputs rest
      | .error e => (span, inputs, some e)
    else if k == "context" then snapshotArgs span inputs rest
    else snapshotArgs span (inputs.setKey k (to_json_obj arg)) rest

/-- Same loop in `async_set_stacktrace_input_meta`, whose body is
`inputs[k] = await async_to_json_obj(arg)` — note the live call site passes
neither `k` nor `args`, so the teeing branch of `async_to_json_obj` is never
taken. -/
def asyncSnapshotArgs : SpanRec → PyDict → List (String × PyVal) →
    SpanRec × PyDict × Option PyExc
  | span, inputs, [] => (span, inputs, Option.none)
  | span, inputs, (k, arg) :: rest =>
    if k == "config" then
      match configMeta span arg with
      | .ok span2 => asyncSnapshotArgs span2 inputs rest
      | .error e => (span, inputs, some e)
    else if k == "context" then asyncSnapshotArgs span inputs rest
    else
      asyncSnapshotArgs span
        (inputs.setKey k (async_to_json_obj arg Option.none Option.none).1) rest

/-- Positional fallback loop of the sync input-meta step when no callable was
supplied (`for idx, arg in enumerate(args): inputs[str(idx)] = to_json_obj(arg)`). -/
def posSnapshot : Nat → List PyVal → PyDict
  | _, [] => .nil
  | i, a :: rest => .cons (toString i) (to_json_obj a) (posSnapshot (i + 1) rest)

/-- Result state of an input-meta step: the (possibly updated) stack-trace
record, the span, the structured log lines emitted through `log_info`, and the
exception, if one escaped. -/
structure InputMetaRes where
  stack_trace : PyDict
  span : SpanRec
  logs : List PyDict
  exc : Option PyExc

/-- `set_stacktrace_input_meta` (source lines 144-178).  With tracing off it
does nothing.  Otherwise, with a callable, it binds the arguments against the
signature, snapshots them by name, stores the snapshot under `"input"` in the
stack-trace record and emits that record as one structured log line; without a
callable it snapshots positionals by index and keywords by name. -/
def set_stacktrace_input_meta (stack_trace : PyDict) (span : SpanRec)
    (args : List PyVal) (kwargs : List (String × PyVal))
    (funcParams : Option Params) (trace_input : Bool) : InputMetaRes :=
  if trace_input then
    match funcParams with
    | some ps =>
      match bindArgs ps args kwargs with
      | .error e => ⟨stack_trace, span, [], some e⟩
      | .ok bound =>
        match snapshotArgs span .nil bound with
        | (span2, _, some e) => ⟨stack_trace, span2, [], some e⟩
        | (span2, inputs, Option.none) =>
          let st2 := stack_trace.setKey "input" (.dict inputs)
          ⟨st2, span2, [st2], Option.none⟩
    | Option.none =>
      match snapshotArgs span (posSnapshot 0 args) kwargs with
      | (span2, _, some e) => ⟨stack_trace, span2, [], some e⟩
      | (span2, inputs, Option.none) =>
        let st2 := stack_trace.setKey "input" (.dict inputs)
        ⟨st2, span2, [st2], Option.none⟩
  else ⟨stack_trace, span, [], Option.none⟩

/-- `async_set_stacktrace_input_meta` (source lines 110-141): as the sync
step with a callable, but each value is serialized through
`await async_to_json_obj(arg)` — without `k`/`args`. -/
def async_set_stacktrace_input_meta (stack_trace : PyDict) (span : SpanRec)
    (args : List PyVal) (kwargs : List (String × PyVal))
    (funcParams : Params) (trace_input : Bool) : InputMetaRes :=
  if trace_input then
    match bindArgs funcParams args kwargs with
    | .error e => ⟨stack_trace, span, [], some e⟩
    | .ok bound =>
      match asyncSnapshotArgs span .nil bound with
      | (span2, _, some e) => ⟨stack_trace, span2, [], some e⟩
      | (span2, inputs, Option.none) =>
        let st2 := stack_trace.setKey "input" (.dict inputs)
        ⟨st2, span2, [st2], Option.none⟩
  else ⟨stack_trace, span, [], Option.none⟩

/-- Result state of the output step: stack-trace record, span, emitted
structured log lines. -/
structure OutputRes where
  stack_trace : PyDict
  span : SpanRec
  logs : List PyDict

/-- `set_stacktrace_output` (source lines 181-197).  When a predicate was
supplied and flags the result, `output_error` is set on the span to
`int(is_output_error(result))` — before and independently of the
`trace_output` branch.  When output tracing is on, the serialized result is
stored under `"output"`, a present `"input"` entry is deleted, and the record
is emitted as one structured log line.  (The trailing
`logger.info("set_stacktrace_output cost:...")` is a plain unstructured log,
not a `log_info` structured line, and is not modelled.) -/
def set_stacktrace_output (stack_trace : PyDict) (span : SpanRec) (result : PyVal)
    (trace_output : Bool) (is_output_error : Option (PyVal → Bool)) : OutputRes :=
  let span2 :=
    match is_output_error with
    | some p =>
      if p result then span.setAttr "output_error" (.int (if p result then 1 else 0))
      else span
    | Option.none => span
  if trace_output then
    let st1 := stack_trace.setKey "output" (to_json_obj result)
    let st2 := if st1.hasKey "input" then st1.delKey "input" else st1
    ⟨st2, span2, [st2]⟩
  else ⟨stack_trace, span2, []⟩

/-! ## Context extractor (source lines 218-251)

An OpenTelemetry `Context` is a string-keyed immutable mapping; the embedded
code only ever stores spans in it, so context values are modelled by span
identifiers (`Nat`).  Python truthiness of a `Context` is dict truthiness:
an empty context is falsy. -/

abbrev Ctx := List (String × Nat)

/-- The distinguished `_SPAN_KEY` under which the active span is stored. -/
def spanKeyC : String := "current-span"

/-- Models `opentelemetry.context.create_key(name)`: a fresh key derived from
the name, distinct from `_SPAN_KEY`. -/
def createKeyC (s : String) : String := s ++ "-key"

/-- Modelled from the external W3C propagator: `extract(headers)` returns a
context holding the remote span parsed from a `traceparent` header, and an
empty context when no such header is present.  The concrete identifier chosen
for the remote span is irrelevant to every claim. -/
def extract (headers : List (String × String)) : Ctx :=
  match headers.find? (fun h => h.1 == "traceparent") with
  | some h => [(spanKeyC, 1000 + h.2.length)]
  | Option.none => []

/-- Ambient tracing state a wrapped call starts from: the current span and the
current propagation context. -/
structure Amb where
  curSpanId : Nat
  current : Ctx

/-- `find_span(span, context)` (source lines 247-251): is the span stored in
the context under some key other than `_SPAN_KEY`? -/
def find_span (sid : Nat) (ctx : Ctx) : Bool :=
  ctx.any (fun kv => kv.1 != spanKeyC && kv.2 == sid)

/-- `set_span_in_context(span, context)`: store the span under `_SPAN_KEY`. -/
def set_span_in_ctx (sid : Nat) (base : Ctx) : Ctx :=
  setKeyL base spanKeyC sid

/-- `get_new_context()` (source lines 236-244): derive a context from the
current span, registering it under a fresh key first when it is not already
stored in the ambient context table. -/
def get_new_context (amb : Amb) : Ctx :=
  if find_span amb.curSpanId amb.current then
    set_span_in_ctx amb.curSpanId amb.current
  else
    set_span_in_ctx amb.curSpanId (setKeyL amb.current (createKeyC spanKeyC) amb.curSpanId)

/-- Is this value a `fastapi.Request` carrier? -/
def isRequest : PyVal → Bool
  | .request _ => true
  | _ => false

/-- Headers of a carrier value. -/
def reqHeaders : PyVal → List (String × String)
  | .request h => h
  | _ => []

/-- `get_context(args, kwargs)` (source lines 218-233): scan positional, then
keyword arguments for a `Request`; each scan that finds one overwrites
`context` with the extraction from its headers (so a keyword carrier wins over
a positional one); a still-falsy context falls back to `get_new_context()`. -/
def get_context (args : List PyVal) (kwargs : List (String × PyVal)) (amb : Amb) : Ctx :=
  let c1 : Option Ctx :=
    match args.find? isRequest with
    | some r => some (extract (reqHeaders r))
    | Option.none => Option.none
  let c2 : Option Ctx :=
    match kwargs.find? (fun kv => isRequest kv.2) with
    | some kv => some (extract (reqHeaders kv.2))
    | Option.none => c1
  match c2 with
  | some c => if c.isEmpty then get_new_context amb else c
  | Option.none => get_new_context amb

/-! ## The decorator `context_trace_function` (source lines 275-369) -/

/-- The decorator's configuration
`{trace_name, trace_input, trace_output, is_output_error, input_context, auto_end}`. -/
structure TraceConfig where
  trace_name : Option String
  trace_input : Bool
  trace_output : Bool
  is_output_error : Option (PyVal → Bool)
  input_context : Option Ctx
  auto_end : Bool

/-- `trace_name if trace_name else func.__name__` (an empty string is falsy). -/
def operationName (trace_name : Option String) (fname : String) : String :=
  match trace_name with
  | some s => if s == "" then fname else s
  | Option.none => fname

/-- Truthiness of `input_context` (absent, or an empty `Context`, is falsy). -/
def ctxTruthy : Option Ctx → Bool
  | some c => !c.isEmpty
  | Option.none => false

/-- The stack-trace record built once per wrap:
`{"operation_name": operation_name}`. -/
def wrapStackTrace (cfg : TraceConfig) (fname : String) : PyDict :=
  .cons "operation_name" (.str (operationName cfg.trace_name fname)) .nil

/-- The fresh span `tracer.start_as_current_span(operation_name, ...)` opens. -/
def initSpan (cfg : TraceConfig) (fname : String) : SpanRec :=
  ⟨operationName cfg.trace_name fname, [], false, false⟩

/-- Span state after the `with` block exits through an exception: the default
`set_status_on_exception=True` marks the status as error, and the span is
ended exactly when `end_on_exit=auto_end` holds. -/
def exitSpanExc (span : SpanRec) (auto_end : Bool) : SpanRec :=
  { span with statusError := true, ended := span.ended || auto_end }

/-- Span state after the `with` block exits normally. -/
def exitSpanOk (span : SpanRec) (auto_end : Bool) : SpanRec :=
  { span with ended := span.ended || auto_end }

/-- Everything observable about one instrumented blocking/awaited call: the
result or propagated exception, the final span state, the structured log lines
emitted, the stack-trace record left behind, the context the span was started
under, and whether the `get_context` extraction path ran. -/
structure CallOutcome where
  result : Except PyExc PyVal
  span : SpanRec
  logs : List PyDict
  stack_trace : PyDict
  usedContext : Ctx
  didExtract : Bool

/-- The shared prologue of every wrapper:
`context = input_context if input_context else get_context(args, kwargs)`. -/
def resolveContext (cfg : TraceConfig) (args : List PyVal)
    (kwargs : List (String × PyVal)) (amb : Amb) : Ctx × Bool :=
  if ctxTruthy cfg.input_context then (cfg.input_context.getD [], false)
  else (get_context args kwargs amb, true)

/-- `sync_wrapper` (source lines 289-304): resolve the context, open the span,
run the input-meta step, call the function, run the output step, return the
result; an exception from the input-meta step or the call propagates through
the `with` block (error status; ended iff `auto_end`). -/
def sync_wrapper (cfg : TraceConfig) (f : PyFunc) (stack_trace : PyDict)
    (args : List PyVal) (kwargs : List (String × PyVal)) (amb : Amb) : CallOutcome :=
  let rc := resolveContext cfg args kwargs amb
  let im := set_stacktrace_input_meta stack_trace (initSpan cfg f.fname) args kwargs
    (some f.params) cfg.trace_input
  match im.exc with
  | some e => ⟨.error e, exitSpanExc im.span cfg.auto_end, im.logs, im.stack_trace, rc.1, rc.2⟩
  | Option.none =>
    match call_plain f args kwargs with
    | .error e => ⟨.error e, exitSpanExc im.span cfg.auto_end, im.logs, im.stack_trace, rc.1, rc.2⟩
    | .ok r =>
      let outp := set_stacktrace_output im.stack_trace im.span r cfg.trace_output cfg.is_output_error
      ⟨.ok r, exitSpanOk outp.span cfg.auto_end, im.logs ++ outp.logs, outp.stack_trace, rc.1, rc.2⟩

/-- `async_wrapper` (source lines 307-322): as `sync_wrapper`, but the input
snapshot goes through `async_set_stacktrace_input_meta`. -/
def async_wrapper (cfg : TraceConfig) (f : PyFunc) (stack_trace : PyDict)
    (args : List PyVal) (kwargs : List (String × PyVal)) (amb : Amb) : CallOutcome :=
  let rc := resolveContext cfg args kwargs amb
  let im := async_set_stacktrace_input_meta stack_trace (initSpan cfg f.fname) args kwargs
    f.params cfg.trace_input
  match im.exc with
  | some e => ⟨.error e, exitSpanExc im.span cfg.auto_end, im.logs, im.stack_trace, rc.1, rc.2⟩
  | Option.none =>
    match call_plain f args kwargs with
    | .error e => ⟨.error e, exitSpanExc im.span cfg.auto_end, im.logs, im.stack_trace, rc.1, rc.2⟩
    | .ok r =>
      let outp := set_stacktrace_output im.stack_trace im.span r cfg.trace_output cfg.is_output_error
      ⟨.ok r, exitSpanOk outp.span cfg.auto_end, im.logs ++ outp.logs, outp.stack_trace, rc.1, rc.2⟩

/-- Everything observable about one instrumented generator call consumed to
exhaustion: the elements forwarded to the caller, the exception that ended the
iteration (if any), plus the same state as `CallOutcome`. -/
structure GenOutcome where
  elems : List PyVal
  exc : Option PyExc
  span : SpanRec
  logs : List PyDict
  stack_trace : PyDict
  usedContext : Ctx
  didExtract : Bool

/-- `generator_wrapper` (source lines 325-340), consumed to exhaustion: every
yielded value is forwarded unchanged while `result` tracks the last one
(initially `None`); the output step runs only when the iteration finishes
without an exception. -/
def generator_wrapper (cfg : TraceConfig) (f : GenFunc) (stack_trace : PyDict)
    (args : List PyVal) (kwargs : List (String × PyVal)) (amb : Amb) : GenOutcome :=
  let rc := resolveContext cfg args kwargs amb
  let im := set_stacktrace_input_meta stack_trace (initSpan cfg f.fname) args kwargs
    (some f.params) cfg.trace_input
  match im.exc with
  | some e => ⟨[], some e, exitSpanExc im.span cfg.auto_end, im.logs, im.stack_trace, rc.1, rc.2⟩
  | Option.none =>
    match call_gen f args kwargs with
    | (vals, some e) =>
      ⟨vals, some e, exitSpanExc im.span cfg.auto_end, im.logs, im.stack_trace, rc.1, rc.2⟩
    | (vals, Option.none) =>
      let result := (vals.getLast?).getD PyVal.none
      let outp := set_stacktrace_output im.stack_trace im.span result cfg.trace_output cfg.is_output_error
      ⟨vals, Option.none, exitSpanOk outp.span cfg.auto_end, im.logs ++ outp.logs,
        outp.stack_trace, rc.1, rc.2⟩

/-- `async_generator_wrapper` (source lines 343-358): as `generator_wrapper`
with the async input-meta step. -/
def async_generator_wrapper (cfg : TraceConfig) (f : GenFunc) (stack_trace : PyDict)
    (args : List PyVal) (kwargs : List (String × PyVal)) (amb : Amb) : GenOutcome :=
  let rc := resolveContext cfg args kwargs amb
  let im := async_set_stacktrace_input_meta stack_trace (initSpan cfg f.fname) args kwargs
    f.params cfg.trace_input
  match im.exc with
  | some e => ⟨[], some e, exitSpanExc im.span cfg.auto_end, im.logs, im.stack_trace, rc.1, rc.2⟩
  | Option.none =>
    match call_gen f args kwargs with
    | (vals, some e) =>
      ⟨vals, some e, exitSpanExc im.span cfg.auto_end, im.logs, im.stack_trace, rc.1, rc.2⟩
    | (vals, Option.none) =>
      let result := (vals.getLast?).getD PyVal.none
      let outp := set_stacktrace_output im.stack_trace im.span result cfg.trace_output cfg.is_output_error
      ⟨vals, Option.none, exitSpanOk outp.span cfg.auto_end, im.logs ++ outp.logs,
        outp.stack_trace, rc.1, rc.2⟩

/-- One call of a freshly wrapped blocking callable: the decorator builds the
per-wrap stack-trace record `{"operation_name": ...}` and dispatches to
`sync_wrapper`. -/
def wrapCallSync (cfg : TraceConfig) (f : PyFunc) (args : List PyVal)
    (kwargs : List (String × PyVal)) (amb : Amb) : CallOutcome :=
  sync_wrapper cfg f (wrapStackTrace cfg f.fname) args kwargs amb

/-- One call of a freshly wrapped coroutine function. -/
def wrapCallAsync (cfg : TraceConfig) (f : PyFunc) (args : List PyVal)
    (kwargs : List (String × PyVal)) (amb : Amb) : CallOutcome :=
  async_wrapper cfg f (wrapStackTrace cfg f.fname) args kwargs amb

/-- One fully consumed call of a freshly wrapped generator function. -/
def wrapCallGen (cfg : TraceConfig) (f : GenFunc) (args : List PyVal)
    (kwargs : List (String × PyVal)) (amb : Amb) : GenOutcome :=
  generator_wrapper cfg f (wrapStackTrace cfg f.fname) args kwargs amb

/-- One fully consumed call of a freshly wrapped async-generator function. -/
def wrapCallAsyncGen (cfg : TraceConfig) (f : GenFunc) (args : List PyVal)
    (kwargs : List (String × PyVal)) (amb : Amb) : GenOutcome :=
  async_generator_wrapper cfg f (wrapStackTrace cfg f.fname) args kwargs amb

/-! ## `end_span_recursive` (source lines 254-272)

A `ReadableSpan` is modelled by its identifier, the identifier its parent
span-context carries (if any), and its end timestamp.  The ambient context
table maps keys to spans or to other values. -/

/-- A span as `end_span_recursive` observes it. -/
structure MSpan where
  sid : Nat
  parent : Option Nat
  endTime : Option Nat
deriving DecidableEq

/-- A value stored in the ambient context table. -/
inductive CtxVal where
  | span (s : MSpan)
  | other
deriving DecidableEq

/-- The ambient context table `get_current()` returns. -/
abbrev CtxTable := List (String × CtxVal)

/-- The inner `for` loop of `end_span_recursive`: scan the whole table and
keep reassigning `c_span` to every entry (key other than `_SPAN_KEY`, value a
span) whose span-context equals the parent context — the `continue` only skips
to the next table entry, so the last match wins and no match leaves `c_span`
unchanged. -/
def findParentSpan (ctx : CtxTable) (p : Nat) : Option MSpan :=
  ctx.foldl
    (fun acc kv =>
      match kv.2 with
      | .span s => if kv.1 != spanKeyC && s.sid == p then some s else acc
      | .other => acc)
    Option.none

/-- Ends (sets the end time of) every aliased copy of span `sid` stored in the
table, modelling that `c_span.end()` mutates the shared span object. -/
def endSpanInCtx (ctx : CtxTable) (sid : Nat) : CtxTable :=
  ctx.map (fun kv =>
    match kv.2 with
    | .span s => if s.sid == sid then (kv.1, .span { s with endTime := some 1 }) else kv
    | .other => kv)

/-- The `while c_span:` loop of `end_span_recursive`, with explicit fuel: a
span object is always truthy, so the loop only leaves through the
`parent_context is None` break.  One iteration ends `c_span` if it is not yet
ended, breaks at a root, and otherwise rescans the table: when no table entry
matches the parent, `c_span` is left unchanged and the loop repeats with the
very same state.  `none` means the fuel ran out, i.e. the loop has not
terminated within that many iterations. -/
def end_span_recursive_loop : Nat → CtxTable → MSpan → Option (CtxTable × MSpan)
  | 0, _, _ => Option.none
  | fuel + 1, ctx, c_span =>
    let st :=
      if c_span.endTime = Option.none then
        ({ c_span with endTime := some 1 }, endSpanInCtx ctx c_span.sid)
      else (c_span, ctx)
    match st.1.parent with
    | Option.none => some (st.2, st.1)
    | some p =>
      match findParentSpan st.2 p with
      | some s => end_span_recursive_loop fuel st.2 s
      | Option.none => end_span_recursive_loop fuel st.2 st.1

/-- `end_span_recursive(span)`: run the loop on the current context table. -/
def end_span_recursive (fuel : Nat) (amb : CtxTable) (span : MSpan) :
    Option (CtxTable × MSpan) :=
  end_span_recursive_loop fuel amb span

/-! ## Value classifiers and concrete fixtures -/

/-- The `isinstance(arg, (bool, int, float, str, list, tuple, set, dict))`
test of `to_json_obj`. -/
def isPrimOrContainer : PyVal → Bool
  | .bool _ => true
  | .int _ => true
  | .str _ => true
  | .list _ => true
  | .tuple _ => true
  | .set _ => true
  | .dict _ => true
  | _ => false

/-- Default ambient state: current span 1, empty ambient context. -/
def ambDefault : Amb := ⟨1, []⟩

/-- Decorator defaults: no explicit name, no tracing, no predicate, no
context, `auto_end=True`. -/
def cfgPlain : TraceConfig := ⟨Option.none, false, false, Option.none, Option.none, true⟩

/-- `trace_input=True` only. -/
def cfgInputOnly : TraceConfig := ⟨Option.none, true, false, Option.none, Option.none, true⟩

/-- `trace_input=True, trace_output=True`. -/
def cfgBoth : TraceConfig := ⟨Option.none, true, true, Option.none, Option.none, true⟩

/-- Defaults except `auto_end=False`. -/
def cfgNoAutoEnd : TraceConfig := ⟨Option.none, false, false, Option.none, Option.none, false⟩

/-- Defaults except an explicitly supplied, empty, `input_context`
(`Context()` in Python). -/
def cfgEmptyCtx : TraceConfig := ⟨Option.none, false, false, Option.none, some [], true⟩

/-- The spec's `add(a, b) = a + b`. -/
def addFunc : PyFunc :=
  ⟨"add", [("a", Option.none), ("b", Option.none)], fun bound =>
    match lookupL bound "a", lookupL bound "b" with
    | some (.int x), some (.int y) => .ok (.int (x + y))
    | _, _ => .error .typeError⟩

/-- The spec's callable that raises `ValueError("bad")`. -/
def boomFunc : PyFunc := ⟨"boom", [], fun _ => .error (.valueError "bad")⟩

/-- A callable with a parameter named `config` that returns 42. -/
def configFunc : PyFunc := ⟨"g", [("config", Option.none)], fun _ => .ok (.int 42)⟩

/-- A coroutine function taking one async-iterable argument `s`. -/
def streamFunc : PyFunc := ⟨"stream", [("s", Option.none)], fun _ => .ok PyVal.none⟩

/-- A callable taking one request argument. -/
def reqFunc : PyFunc := ⟨"serve", [("req", Option.none)], fun _ => .ok PyVal.none⟩

/-- A generator function yielding `1, 2, 3` (its two parameters are ignored). -/
def genFix : GenFunc :=
  ⟨"gen3", [("a", Option.none), ("b", Option.none)],
    fun _ => ([.int 1, .int 2, .int 3], Option.none)⟩

/-- Defaults except a supplied non-empty `input_context`. -/
def cfgCtxFive : TraceConfig :=
  ⟨Option.none, false, false, Option.none, some [("k", 5)], true⟩

/-- A request carrier with a `traceparent` header. -/
def reqVal : PyVal := .request [("traceparent", "00-abc-def-01")]

/-- A span fixture. -/
def spanW : SpanRec := ⟨"w", [], false, false⟩

/-! ## Helper lemmas -/

/-- `lookupL` finds the value `setKeyL` just stored. -/
theorem lookupL_setKeyL {α : Type} (l : List (String × α)) (k : String) (v : α) :
    lookupL (setKeyL l k v) k = some v := by
  induction l with
  | nil => simp [setKeyL, lookupL]
  | cons kv rest ih =>
    obtain ⟨k', v'⟩ := kv
    by_cases h : (k' == k) = true
    · simp [setKeyL, lookupL, h]
    · simp [setKeyL, lookupL, h, ih]

/-- Without `k` and `args`, `async_to_json_obj` is `to_json_obj` and touches
no argument list. -/
theorem async_to_json_obj_plain (a : PyVal) :
    async_to_json_obj a Option.none Option.none = (to_json_obj a, Option.none) := by
  cases a <;> rfl

/-- Along the live call path (no `k`/`args`), the async snapshot loop agrees
with the synchronous one. -/
theorem asyncSnapshotArgs_eq :
    ∀ (l : List (String × PyVal)) (span : SpanRec) (inputs : PyDict),
      asyncSnapshotArgs span inputs l = snapshotArgs span inputs l
  | [], _, _ => rfl
  | (k, arg) :: rest, span, inputs => by
    simp only [asyncSnapshotArgs, snapshotArgs, async_to_json_obj_plain]
    by_cases hk : (k == "config") = true
    · simp only [hk, if_true]
      cases h : configMeta span arg with
      | ok span2 => simp [asyncSnapshotArgs_eq rest]
      | error e => rfl
    · by_cases hc : (k == "context") = true
      · simp [hk, hc, asyncSnapshotArgs_eq rest]
      · simp [hk, hc, asyncSnapshotArgs_eq rest]

/-- The async input-meta step coincides with the synchronous one for a present
callable, because its snapshot loop never passes `k`/`args`. -/
theorem async_input_meta_eq (st : PyDict) (sp : SpanRec) (args : List PyVal)
    (kwargs : List (String × PyVal)) (ps : Params) (ti : Bool) :
    async_set_stacktrace_input_meta st sp args kwargs ps ti
      = set_stacktrace_input_meta st sp args kwargs (some ps) ti := by
  simp only [async_set_stacktrace_input_meta, set_stacktrace_input_meta, asyncSnapshotArgs_eq]

/-- The only exception `configMeta` can raise is `AttributeError`. -/
theorem configMeta_error_attr (span : SpanRec) (arg : PyVal) (e : PyExc)
    (h : configMeta span arg = .error e) : e = .attributeError := by
  unfold configMeta at h
  split at h
  next kvs =>
    split at h
    · exact absurd h (by simp)
    next m _ =>
      split at h
      · split at h
        · exact absurd h (by simp)
        · injection h with h2; exact h2.symm
      · exact absurd h (by simp)
  next => injection h with h2; exact h2.symm

/-- The only exception the named snapshot loop can raise is `AttributeError`. -/
theorem snapshotArgs_error_attr :
    ∀ (l : List (String × PyVal)) (span : SpanRec) (inputs : PyDict) (e : PyExc),
      (snapshotArgs span inputs l).2.2 = some e → e = .attributeError
  | [], _, _, _, h => by simp [snapshotArgs] at h
  | (k, arg) :: rest, span, inputs, e, h => by
    simp only [snapshotArgs] at h
    by_cases hk : (k == "config") = true
    · simp only [hk, if_true] at h
      cases hc : configMeta span arg with
      | ok span2 =>
        rw [hc] at h
        exact snapshotArgs_error_attr rest span2 inputs e h
      | error e' =>
        rw [hc] at h
        simp at h
        rw [← h]
        exact configMeta_error_attr span arg e' hc
    · by_cases hctx : (k == "context") = true
      · simp only [hk, if_false, hctx, if_true] at h
        exact snapshotArgs_error_attr rest span inputs e h
      · simp only [hk, if_false, hctx] at h
        exact snapshotArgs_error_attr rest span
          (inputs.setKey k (to_json_obj arg)) e h

/-- An exception escaping the input-meta step is either the snapshot loop's
`AttributeError` or the very `TypeError` that binding the arguments against
the signature produces. -/
theorem inputMeta_exc_cases (st : PyDict) (sp : SpanRec) (args : List PyVal)
    (kwargs : List (String × PyVal)) (ps : Params) (ti : Bool) (e : PyExc)
    (h : (set_stacktrace_input_meta st sp args kwargs (some ps) ti).exc = some e) :
    e = .attributeError ∨ bindArgs ps args kwargs = .error e := by
  unfold set_stacktrace_input_meta at h
  split at h
  · split at h
    next ps2 heq =>
      injection heq with heq2
      subst heq2
      split at h
      next e' heq3 =>
        simp at h
        subst h
        exact Or.inr heq3
      next bound heq3 =>
        split at h
        next span2 fst e' heq4 =>
          simp at h
          subst h
          exact Or.inl (snapshotArgs_error_attr bound sp .nil e' (by rw [heq4]))
        next span2 inputs heq4 => simp at h
    next heq => simp at heq
  · simp at h

/-- The input-meta step emits either nothing or exactly one record: the input
record stored into the stack trace. -/
theorem inputMeta_logs_cases (st : PyDict) (sp : SpanRec) (args : List PyVal)
    (kwargs : List (String × PyVal)) (fp : Option Params) (ti : Bool) :
    (set_stacktrace_input_meta st sp args kwargs fp ti).logs = []
    ∨ ∃ i, (set_stacktrace_input_meta st sp args kwargs fp ti).logs
        = [st.setKey "input" (.dict i)] := by
  unfold set_stacktrace_input_meta
  split
  · split
    next ps =>
      cases hb : bindArgs ps args kwargs with
      | error e => simp [hb]
      | ok bound =>
        simp only [hb]
        split
        next span2 fst e heq => simp
        next span2 inputs heq => exact Or.inr ⟨inputs, by simp⟩
    next =>
      split
      next span2 fst e heq => simp
      next span2 inputs heq => exact Or.inr ⟨inputs, by simp⟩
  · simp

/-- The per-wrap stack-trace record extended with an input snapshot has no
`"output"` entry. -/
theorem wrapStackTrace_input_no_output (cfg : TraceConfig) (fn : String) (i : PyDict) :
    ((wrapStackTrace cfg fn).setKey "input" (.dict i)).hasKey "output" = false := rfl

/-- `sync_wrapper` starts its span under the resolved context, and consults
the extraction path exactly when `resolveContext` does, in every branch. -/
theorem sync_wrapper_context (cfg : TraceConfig) (f : PyFunc) (st : PyDict)
    (args : List PyVal) (kwargs : List (String × PyVal)) (amb : Amb) :
    (sync_wrapper cfg f st args kwargs amb).usedContext
        = (resolveContext cfg args kwargs amb).1
    ∧ (sync_wrapper cfg f st args kwargs amb).didExtract
        = (resolveContext cfg args kwargs amb).2 := by
  unfold sync_wrapper
  constructor <;>
    cases h : (set_stacktrace_input_meta st (initSpan cfg f.fname) args kwargs
        (some f.params) cfg.trace_input).exc with
  | some e => simp [h]
  | none => rcases hc : call_plain f args kwargs with e | r <;> simp [h, hc]

/-- The wrapped (sync) call returns exactly what the uninstrumented call
returns, as long as the input-snapshot step does not itself raise an
`AttributeError` (a `TypeError` it raises is the binding failure the plain
call reproduces). -/
theorem sync_wrapper_result (cfg : TraceConfig) (f : PyFunc) (st : PyDict)
    (args : List PyVal) (kwargs : List (String × PyVal)) (amb : Amb)
    (him : (set_stacktrace_input_meta st (initSpan cfg f.fname) args kwargs
      (some f.params) cfg.trace_input).exc ≠ some .attributeError) :
    (sync_wrapper cfg f st args kwargs amb).result = call_plain f args kwargs := by
  unfold sync_wrapper
  cases h : (set_stacktrace_input_meta st (initSpan cfg f.fname) args kwargs
      (some f.params) cfg.trace_input).exc with
  | none => rcases hc : call_plain f args kwargs with e | r <;> simp [h, hc]
  | some e =>
    rcases inputMeta_exc_cases st (initSpan cfg f.fname) args kwargs f.params
        cfg.trace_input e h with he | hbind
    · exact absurd (by rw [h, he]) him
    · simp [h, call_plain, hbind]

/-- Generator-shape analogue of `sync_wrapper_result`: the forwarded element
sequence and the terminating exception equal the uninstrumented generator's. -/
theorem generator_wrapper_result (cfg : TraceConfig) (g : GenFunc) (st : PyDict)
    (args : List PyVal) (kwargs : List (String × PyVal)) (amb : Amb)
    (him : (set_stacktrace_input_meta st (initSpan cfg g.fname) args kwargs
      (some g.params) cfg.trace_input).exc ≠ some .attributeError) :
    (generator_wrapper cfg g st args kwargs amb).elems = (call_gen g args kwargs).1
    ∧ (generator_wrapper cfg g st args kwargs amb).exc = (call_gen g args kwargs).2 := by
  unfold generator_wrapper
  cases h : (set_stacktrace_input_meta st (initSpan cfg g.fname) args kwargs
      (some g.params) cfg.trace_input).exc with
  | none =>
    rcases hc : call_gen g args kwargs with ⟨vals, exo⟩
    cases exo <;> simp [h, hc]
  | some e =>
    rcases inputMeta_exc_cases st (initSpan cfg g.fname) args kwargs g.params
        cfg.trace_input e h with he | hbind
    · exact absurd (by rw [h, he]) him
    · simp [h, call_gen, hbind]

mutual
/-- Mutual helper: `clean_empty` is a fixed point on already-cleaned values. -/
theorem cleanVal_idem : ∀ v, clean_empty (clean_empty v) = clean_empty v
  | .none | .bool _ | .int _ | .str _ => rfl
  | .tuple _ | .set _ | .baseModel _ | .asyncIter _ | .obj _ _ | .request _ => rfl
  | .list xs => by simp only [clean_empty, cleanList_idem xs]
  | .dict kvs => by simp only [clean_empty, cleanDict_idem kvs]

/-- Mutual helper: the list comprehension of `clean_empty` is idempotent. -/
theorem cleanList_idem : ∀ xs, cleanList (cleanList xs) = cleanList xs
  | .nil => rfl
  | .cons v rest => by
    simp only [cleanList]
    by_cases h : keepInList (clean_empty v)
    · simp only [h, if_true, cleanList, cleanVal_idem v, h, cleanList_idem rest]
    · simp [h, cleanList_idem rest]

/-- Mutual helper: the dict comprehension of `clean_empty` is idempotent. -/
theorem cleanDict_idem : ∀ kvs, cleanDict (cleanDict kvs) = cleanDict kvs
  | .nil => rfl
  | .cons k v rest => by
    simp only [cleanDict]
    by_cases h : keepInDict (clean_empty v)
    · simp only [h, if_true, cleanDict, cleanVal_idem v, h, cleanDict_idem rest]
    · simp [h, cleanDict_idem rest]
end

/-- Claim C9: `clean_empty` is idempotent — for every value `d`,
`clean_empty(clean_empty(d))` equals `clean_empty(d)`. -/
theorem clean_empty_idempotent (d : PyVal) :
    clean_empty (clean_empty d) = clean_empty d :=
  cleanVal_idem d

/-- Claim C2 (code bug): at the spec's own example
`{"a": [], "b": {"c": None}, "d": 1}`, the source's `clean_empty` returns
`{"a": [], "d": 1}`, not `{"d": 1}` — the dict-comprehension filter
`v is not None and v != {}` keeps an empty list, contradicting the function's
docstring "Recursively remove empty lists, empty dicts, or None elements from
a dictionary". -/
theorem clean_empty_spec_example_bug :
    clean_empty (.dict (pd [("a", .list (pl [])), ("b", .dict (pd [("c", PyVal.none)])),
        ("d", .int 1)]))
      = .dict (pd [("a", .list (pl [])), ("d", .int 1)]) := rfl

/-- Once the walking span is already ended but its parent is absent from the
ambient table, `end_span_recursive`'s `while` loop repeats the identical
state forever. -/
theorem end_span_loop_stuck (fuel : Nat) :
    end_span_recursive_loop fuel [] ⟨1, some 2, some 1⟩ = Option.none := by
  induction fuel with
  | zero => rfl
  | succ n ih => simpa [end_span_recursive_loop, findParentSpan] using ih

/-- Claim C4 (code bug): `end_span_recursive` does not terminate on a span
whose parent span-context matches no span stored in the ambient context
table — the scan leaves `c_span` unchanged and the `while c_span:` loop
(a span object is always truthy) never exits, for any amount of fuel. -/
theorem end_span_recursive_diverges (fuel : Nat) :
    end_span_recursive fuel [] ⟨1, some 2, Option.none⟩ = Option.none := by
  cases fuel with
  | zero => rfl
  | succ n =>
    simpa [end_span_recursive, end_span_recursive_loop, findParentSpan,
      endSpanInCtx] using end_span_loop_stuck n

/-- Claim C7: the structured serializer is total and produces a
JSON-representable structure or a string for every value: a pydantic model is
converted through its parsed `model_dump_json` (empty string when the
conversion raised), primitives and standard containers pass through unchanged,
a value outside those categories maps to `""` or `None`, and
`custom_serializer` sends an arbitrary object to its `clean_empty`-pruned
attribute mapping when it has a `__dict__`, and to its string representation
otherwise. -/
theorem serializer_total_spec (v : PyVal) :
    (isPrimOrContainer v = true → to_json_obj v = v)
    ∧ (∀ d, v = .baseModel (some d) → to_json_obj v = d)
    ∧ (v = .baseModel Option.none → to_json_obj v = .str "")
    ∧ (isPrimOrContainer v = false →
        (∃ d, v = .baseModel (some d) ∧ to_json_obj v = d)
        ∨ to_json_obj v = .str "" ∨ to_json_obj v = PyVal.none)
    ∧ (∀ attrs r, v = .obj (some attrs) r → custom_serializer v = clean_empty (.dict attrs))
    ∧ (∀ r, v = .obj Option.none r → custom_serializer v = .str r) := by
  refine ⟨?_, ?_, ?_, ?_, ?_, ?_⟩
  · intro h
    cases v <;> first | rfl | simp [isPrimOrContainer] at h
  · intro d h
    subst h
    rfl
  · intro h
    subst h
    rfl
  · intro h
    cases v with
    | baseModel d =>
      cases d with
      | none => exact Or.inr (Or.inl rfl)
      | some d => exact Or.inl ⟨d, rfl, rfl⟩
    | none => exact Or.inr (Or.inr rfl)
    | asyncIter elems => exact Or.inr (Or.inr rfl)
    | obj attrs r => exact Or.inr (Or.inr rfl)
    | request hs => exact Or.inr (Or.inr rfl)
    | _ => simp [isPrimOrContainer] at h
  · intro attrs r h
    subst h
    rfl
  · intro r h
    subst h
    rfl

/-- Witness for C7 at two concrete inputs: a model whose dump parsed to `7`,
and an attribute-bearing object whose pruned `__dict__` is empty. -/
theorem serializer_total_spec_witness :
    to_json_obj (.baseModel (some (.int 7))) = .int 7
    ∧ custom_serializer (.obj (some (pd [("x", PyVal.none)])) "O") = .dict PyDict.nil :=
  ⟨(serializer_total_spec (.baseModel (some (.int 7)))).2.1 (.int 7) rfl,
   ((serializer_total_spec (.obj (some (pd [("x", PyVal.none)])) "O")).2.2.2.2.1
      (pd [("x", PyVal.none)]) "O" rfl).trans rfl⟩

/-- Claim C10: `set_stacktrace_output` sets the span's `output_error`
attribute to `int(is_output_error(result))` whenever the predicate is supplied
and flags the result, for either value of `trace_output`; with output tracing
disabled no structured log line is emitted, so the span carries the attribute
without an output log line. -/
theorem output_error_attr_independent (st : PyDict) (span : SpanRec) (result : PyVal)
    (trace_output : Bool) (p : PyVal → Bool) (hp : p result = true) :
    lookupL (set_stacktrace_output st span result trace_output (some p)).span.attrs
        "output_error" = some (.int 1)
    ∧ (trace_output = false →
        (set_stacktrace_output st span result trace_output (some p)).logs = []) := by
  unfold set_stacktrace_output
  constructor
  · cases trace_output <;> simp [hp, SpanRec.setAttr, lookupL_setKeyL]
  · intro h
    subst h
    simp

/-- Witness for C10: a flagged result with `trace_output=False` — the span
carries `output_error = 1` and no log line was emitted. -/
theorem output_error_attr_independent_witness :
    lookupL (set_stacktrace_output PyDict.nil spanW (.int 3) false
        (some (fun _ => true))).span.attrs "output_error" = some (.int 1)
    ∧ (set_stacktrace_output PyDict.nil spanW (.int 3) false
        (some (fun _ => true))).logs = [] :=
  ⟨(output_error_attr_independent PyDict.nil spanW (.int 3) false (fun _ => true) rfl).1,
   (output_error_attr_independent PyDict.nil spanW (.int 3) false (fun _ => true) rfl).2 rfl⟩

/-- The async wrapper is the sync wrapper: the only difference is the input
snapshot step, and along the live call path the two coincide. -/
theorem async_wrapper_eq_sync (cfg : TraceConfig) (f : PyFunc) (st : PyDict)
    (args : List PyVal) (kwargs : List (String × PyVal)) (amb : Amb) :
    async_wrapper cfg f st args kwargs amb = sync_wrapper cfg f st args kwargs amb := by
  unfold async_wrapper sync_wrapper
  rw [async_input_meta_eq]

/-- The async-generator wrapper is the generator wrapper, for the same
reason. -/
theorem async_generator_wrapper_eq (cfg : TraceConfig) (g : GenFunc) (st : PyDict)
    (args : List PyVal) (kwargs : List (String × PyVal)) (amb : Amb) :
    async_generator_wrapper cfg g st args kwargs amb
      = generator_wrapper cfg g st args kwargs amb := by
  unfold async_generator_wrapper generator_wrapper
  rw [async_input_meta_eq]

/-- Claim C3 counterexample: wrapping a callable with a parameter named
`config` and calling it with a non-mapping `config` value under
`trace_input=True` raises `AttributeError` (`arg.get("metadata")` on an
`int`), while the plain call returns 42 — so transparency fails as stated. -/
theorem transparency_counterexample :
    call_plain configFunc [.int 5] [] = .ok (.int 42)
    ∧ (wrapCallSync cfgInputOnly configFunc [.int 5] [] ambDefault).result
        = .error .attributeError
    ∧ (wrapCallSync cfgInputOnly configFunc [.int 5] [] ambDefault).result
        ≠ call_plain configFunc [.int 5] [] := by
  refine ⟨rfl, rfl, fun h => ?_⟩
  rw [show (wrapCallSync cfgInputOnly configFunc [.int 5] [] ambDefault).result
      = Except.error PyExc.attributeError from rfl] at h
  rw [show call_plain configFunc [.int 5] [] = Except.ok (PyVal.int 42) from rfl] at h
  exact Except.noConfusion h

/-- Claim C3 (amended): instrumentation is functionally transparent — the
wrapped callable of every invocation shape returns the same value, yields the
same element sequence, or raises the same exception as the uninstrumented
call — provided the input-snapshot step does not itself raise an
`AttributeError`, i.e. unless input tracing is on and a bound argument named
`config` is a non-mapping or carries a truthy non-mapping `metadata` entry. -/
theorem instrumentation_transparent (cfg : TraceConfig) (f : PyFunc) (g : GenFunc)
    (args : List PyVal) (kwargs : List (String × PyVal)) (amb : Amb)
    (hf : (set_stacktrace_input_meta (wrapStackTrace cfg f.fname) (initSpan cfg f.fname)
        args kwargs (some f.params) cfg.trace_input).exc ≠ some .attributeError)
    (hg : (set_stacktrace_input_meta (wrapStackTrace cfg g.fname) (initSpan cfg g.fname)
        args kwargs (some g.params) cfg.trace_input).exc ≠ some .attributeError) :
    (wrapCallSync cfg f args kwargs amb).result = call_plain f args kwargs
    ∧ (wrapCallAsync cfg f args kwargs amb).result = call_plain f args kwargs
    ∧ (wrapCallGen cfg g args kwargs amb).elems = (call_gen g args kwargs).1
    ∧ (wrapCallGen cfg g args kwargs amb).exc = (call_gen g args kwargs).2
    ∧ (wrapCallAsyncGen cfg g args kwargs amb).elems = (call_gen g args kwargs).1
    ∧ (wrapCallAsyncGen cfg g args kwargs amb).exc = (call_gen g args kwargs).2 := by
  have hsync := sync_wrapper_result cfg f (wrapStackTrace cfg f.fname) args kwargs amb hf
  have hgen := generator_wrapper_result cfg g (wrapStackTrace cfg g.fname) args kwargs amb hg
  refine ⟨hsync, ?_, hgen.1, hgen.2, ?_, ?_⟩
  · unfold wrapCallAsync
    rw [async_wrapper_eq_sync]
    exact hsync
  · unfold wrapCallAsyncGen
    rw [async_generator_wrapper_eq]
    exact hgen.1
  · unfold wrapCallAsyncGen
    rw [async_generator_wrapper_eq]
    exact hgen.2

/-- Witness for C3 at `add(2, 3)` and the `1,2,3` generator under full
tracing: the wrapped calls produce exactly the uninstrumented outcomes. -/
theorem instrumentation_transparent_witness :
    (wrapCallSync cfgBoth addFunc [.int 2, .int 3] [] ambDefault).result = .ok (.int 5)
    ∧ (wrapCallGen cfgBoth genFix [.int 2, .int 3] [] ambDefault).elems
        = [.int 1, .int 2, .int 3] := by
  have h := instrumentation_transparent cfgBoth addFunc genFix [.int 2, .int 3] []
    ambDefault (fun hx => by
      rw [show (set_stacktrace_input_meta (wrapStackTrace cfgBoth addFunc.fname)
          (initSpan cfgBoth addFunc.fname) [.int 2, .int 3] [] (some addFunc.params)
          cfgBoth.trace_input).exc = Option.none from rfl] at hx
      exact Option.noConfusion hx)
    (fun hx => by
      rw [show (set_stacktrace_input_meta (wrapStackTrace cfgBoth genFix.fname)
          (initSpan cfgBoth genFix.fname) [.int 2, .int 3] [] (some genFix.params)
          cfgBoth.trace_input).exc = Option.none from rfl] at hx
      exact Option.noConfusion hx)
  exact ⟨h.1.trans rfl, (h.2.2.1).trans rfl⟩

/-- Claim C5: with both input and output tracing enabled, a successful
wrapped call emits exactly two structured log lines, in order: first the
record holding the named input snapshot, then the record holding the output
snapshot from which the `"input"` entry has been deleted (the replacement
rule), and the call returns the wrapped function's result. -/
theorem traced_call_two_log_lines (cfg : TraceConfig) (f : PyFunc) (args : List PyVal)
    (kwargs : List (String × PyVal)) (amb : Amb) (bound : List (String × PyVal))
    (span2 : SpanRec) (inputs : PyDict) (r : PyVal)
    (hti : cfg.trace_input = true) (hto : cfg.trace_output = true)
    (hb : bindArgs f.params args kwargs = .ok bound)
    (hs : snapshotArgs (initSpan cfg f.fname) PyDict.nil bound
        = (span2, inputs, Option.none))
    (hr : f.body bound = .ok r) :
    (wrapCallSync cfg f args kwargs amb).result = .ok r
    ∧ (wrapCallSync cfg f args kwargs amb).logs =
        [(wrapStackTrace cfg f.fname).setKey "input" (.dict inputs),
         (((wrapStackTrace cfg f.fname).setKey "input" (.dict inputs)).setKey "output"
             (to_json_obj r)).delKey "input"]
    ∧ ((wrapStackTrace cfg f.fname).setKey "input" (.dict inputs)).lookup "input"
        = some (.dict inputs)
    ∧ ((((wrapStackTrace cfg f.fname).setKey "input" (.dict inputs)).setKey "output"
          (to_json_obj r)).delKey "input").lookup "output" = some (to_json_obj r)
    ∧ ((((wrapStackTrace cfg f.fname).setKey "input" (.dict inputs)).setKey "output"
          (to_json_obj r)).delKey "input").hasKey "input" = false := by
  have hcall : call_plain f args kwargs = .ok r := by
    simp [call_plain, hb, hr]
  have him : set_stacktrace_input_meta (wrapStackTrace cfg f.fname) (initSpan cfg f.fname)
      args kwargs (some f.params) cfg.trace_input
      = ⟨(wrapStackTrace cfg f.fname).setKey "input" (.dict inputs), span2,
         [(wrapStackTrace cfg f.fname).setKey "input" (.dict inputs)], Option.none⟩ := by
    simp [set_stacktrace_input_meta, hti, hb, hs]
  refine ⟨?_, ?_, rfl, rfl, rfl⟩
  · unfold wrapCallSync sync_wrapper
    simp only [him, hcall]
  · unfold wrapCallSync sync_wrapper
    simp only [him, hcall]
    unfold set_stacktrace_output
    simp only [hto, if_true]
    rfl

/-- Witness for C5: the spec's scenario `wrap(add)(2, 3)` — the call returns 5
and the two log lines are `{operation_name, input={"a":2,"b":3}}` then
`{operation_name, output=5}` with no `input` key. -/
theorem traced_call_two_log_lines_witness :
    (wrapCallSync cfgBoth addFunc [.int 2, .int 3] [] ambDefault).result = .ok (.int 5)
    ∧ (wrapCallSync cfgBoth addFunc [.int 2, .int 3] [] ambDefault).logs =
        [pd [("operation_name", .str "add"), ("input", .dict (pd [("a", .int 2), ("b", .int 3)]))],
         pd [("operation_name", .str "add"), ("output", .int 5)]] := by
  have h := traced_call_two_log_lines cfgBoth addFunc [.int 2, .int 3] [] ambDefault
    [("a", .int 2), ("b", .int 3)] (initSpan cfgBoth addFunc.fname)
    (pd [("a", .int 2), ("b", .int 3)]) (.int 5) rfl rfl rfl rfl rfl
  exact ⟨h.1, (h.2.1).trans rfl⟩

/-- Claim C6 counterexample: with `auto_end=False` a wrapped callable that
raises `ValueError("bad")` re-raises it and the span status is error, but the
span is left not ended when the exception propagates — the claim's "the span
is ended" fails as stated. -/
theorem exception_span_left_open_counterexample :
    (wrapCallSync cfgNoAutoEnd boomFunc [] [] ambDefault).result
        = .error (.valueError "bad")
    ∧ (wrapCallSync cfgNoAutoEnd boomFunc [] [] ambDefault).span.statusError = true
    ∧ (wrapCallSync cfgNoAutoEnd boomFunc [] [] ambDefault).span.ended = false :=
  ⟨rfl, rfl, rfl⟩

/-- Claim C6 (amended): when `auto_end` is left at its default `True`, a
wrapped callable that raises propagates exactly that exception, the span is
ended with error status before the exception reaches the caller, and no
emitted structured log line carries an `"output"` entry; likewise for the
async wrapper. -/
theorem exception_propagation_span_error (cfg : TraceConfig) (f : PyFunc)
    (args : List PyVal) (kwargs : List (String × PyVal)) (amb : Amb) (e : PyExc)
    (hauto : cfg.auto_end = true)
    (him : (set_stacktrace_input_meta (wrapStackTrace cfg f.fname) (initSpan cfg f.fname)
        args kwargs (some f.params) cfg.trace_input).exc = Option.none)
    (hf : call_plain f args kwargs = .error e) :
    (wrapCallSync cfg f args kwargs amb).result = .error e
    ∧ (wrapCallSync cfg f args kwargs amb).span.ended = true
    ∧ (wrapCallSync cfg f args kwargs amb).span.statusError = true
    ∧ (∀ l ∈ (wrapCallSync cfg f args kwargs amb).logs, l.hasKey "output" = false)
    ∧ (wrapCallAsync cfg f args kwargs amb).result = .error e
    ∧ (wrapCallAsync cfg f args kwargs amb).span.ended = true
    ∧ (wrapCallAsync cfg f args kwargs amb).span.statusError = true := by
  have hlogs : ∀ l ∈ (set_stacktrace_input_meta (wrapStackTrace cfg f.fname)
      (initSpan cfg f.fname) args kwargs (some f.params) cfg.trace_input).logs,
      PyDict.hasKey l "output" = false := by
    rcases inputMeta_logs_cases (wrapStackTrace cfg f.fname) (initSpan cfg f.fname)
        args kwargs (some f.params) cfg.trace_input with h0 | ⟨i, h0⟩ <;> rw [h0]
    · intro l hl
      simp at hl
    · intro l hl
      simp at hl
      subst hl
      exact wrapStackTrace_input_no_output cfg f.fname i
  unfold wrapCallSync sync_wrapper wrapCallAsync async_wrapper
  simp only [async_input_meta_eq, him, hf, exitSpanExc, hauto, Bool.or_true]
  refine ⟨trivial, trivial, trivial, ?_, trivial, trivial, trivial⟩
  simpa using hlogs

/-- Witness for C6: the spec's `ValueError("bad")` scenario under decorator
defaults — exception re-raised, span ended with error status. -/
theorem exception_propagation_span_error_witness :
    (wrapCallSync cfgPlain boomFunc [] [] ambDefault).result = .error (.valueError "bad")
    ∧ (wrapCallSync cfgPlain boomFunc [] [] ambDefault).span.ended = true
    ∧ (wrapCallSync cfgPlain boomFunc [] [] ambDefault).span.statusError = true := by
  have h := exception_propagation_span_error cfgPlain boomFunc [] [] ambDefault
    (.valueError "bad") rfl rfl rfl
  exact ⟨h.1, h.2.1, h.2.2.1⟩

/-- Claim C8 counterexample: an explicitly supplied but empty context
(`Context()`) is falsy, so `input_context if input_context else
get_context(...)` discards it — with a request carrier in the arguments, the
span is started under the context extracted from the carrier's headers, not
under the supplied one. -/
theorem empty_supplied_context_ignored :
    cfgEmptyCtx.input_context = some []
    ∧ (wrapCallSync cfgEmptyCtx reqFunc [reqVal] [] ambDefault).didExtract = true
    ∧ (wrapCallSync cfgEmptyCtx reqFunc [reqVal] [] ambDefault).usedContext
        = [(spanKeyC, 1013)]
    ∧ [(spanKeyC, 1013)] ≠ ([] : Ctx) :=
  ⟨rfl, rfl, rfl, by simp⟩

/-- Claim C8 (amended): a supplied non-empty `input_context` is always used
for the span, overriding both carrier extraction and ambient derivation; the
`get_context` extraction path runs only when `input_context` is absent or
empty. -/
theorem supplied_context_overrides (cfg : TraceConfig) (f : PyFunc) (args : List PyVal)
    (kwargs : List (String × PyVal)) (amb : Amb) (c : Ctx)
    (hc : cfg.input_context = some c) (hne : c ≠ []) :
    (wrapCallSync cfg f args kwargs amb).usedContext = c
    ∧ (wrapCallSync cfg f args kwargs amb).didExtract = false := by
  have hrc : resolveContext cfg args kwargs amb = (c, false) := by
    unfold resolveContext ctxTruthy
    rw [hc]
    cases c with
    | nil => exact absurd rfl hne
    | cons a t => simp
  have h := sync_wrapper_context cfg f (wrapStackTrace cfg f.fname) args kwargs amb
  unfold wrapCallSync
  rw [h.1, h.2, hrc]
  exact ⟨rfl, rfl⟩

/-- Witness for C8: a supplied one-entry context wins over a request carrier
present in the arguments. -/
theorem supplied_context_overrides_witness :
    (wrapCallSync cfgCtxFive reqFunc [reqVal] [] ambDefault).usedContext = [("k", 5)]
    ∧ (wrapCallSync cfgCtxFive reqFunc [reqVal] [] ambDefault).didExtract = false :=
  supplied_context_overrides cfgCtxFive reqFunc [reqVal] [] ambDefault [("k", 5)] rfl
    (by simp)

/-- Claim C1 (code bug): the live async input-snapshot loop calls
`async_to_json_obj(arg)` with neither `k` nor `args`, so for an async-iterable
argument the teeing branch never runs: nothing is substituted into the
argument list and the recorded snapshot is Python `None` (from `to_json_obj`),
not the sequence's last element.  The second conjunct evaluates the teeing
branch itself (as the claim describes it, with `k` and `args` supplied) on the
same two-element sequence: there the snapshot is the last element `2` and the
argument list receives a copy carrying the identical element sequence. -/
theorem async_input_snapshot_not_teed :
    (wrapCallAsync cfgInputOnly streamFunc [.asyncIter (pl [.int 1, .int 2])] []
        ambDefault).logs
      = [pd [("operation_name", .str "stream"), ("input", .dict (pd [("s", PyVal.none)]))]]
    ∧ (async_to_json_obj (.asyncIter (pl [.int 1, .int 2])) (some 0)
        (some [.asyncIter (pl [.int 1, .int 2])]))
      = (.int 2, some [.asyncIter (pl [.int 1, .int 2])]) :=
  ⟨rfl, rfl⟩

end ContextTrace
